import Mathlib

/-!
Shallow embedding of `ApiRequest.py`, a TMDB metadata downloader, together
with proofs of its specified behaviours.

Conventions of the embedding:
* JSON values are the inductive `Json`; numbers are modelled as integers
  (every value inspected by the program's logic — identifiers, status codes,
  counters — is integral).
* The network is an oracle: `make_request` receives the sequence of HTTP
  responses as a function of the attempt index; `download_ids` receives the
  already-retried per-identifier fetch outcome as a function of the identifier.
* Real time is modelled by accounting: sleeps are totalled in quarter-second
  units (the smallest sleep in the source is `1 / MAX_DOWNLOADS_PER_SECOND`,
  a quarter second), so 1 second = 4 units and the 429 cooldown
  `RATE_LIMITER_DELAY_SECONDS = 10` seconds = `4 * 10` units.
* The file system is modelled by the existence booleans the source consults
  (`os.path.exists`) and by returning, rather than performing, each
  `to_csv` append (the data frame written, plus its header flag).
-/

/-- JSON values as delivered by `response.json()` / `json.loads`. -/
inductive Json where
  | null : Json
  | bool : Bool → Json
  | num : Int → Json
  | str : String → Json
  | arr : List Json → Json
  | obj : List (String × Json) → Json
deriving Repr

/-- Python truthiness of a JSON-decoded value: `None`, `False`, `0`, `""`,
`[]` and `{}` (written `\x7b\x7d`) are falsy, everything else truthy.
This is what `if not current_data:` tests in `download_ids`. -/
def Json.pyFalsy : Json → Bool
  | .null => true
  | .bool b => !b
  | .num n => n == 0
  | .str s => s == ""
  | .arr l => l.isEmpty
  | .obj f => f.isEmpty

/-- Python `key in x` for a JSON object (dict): key membership.
The source only applies it to dict-valued credit containers. -/
def jsonMember (key : String) : Json → Bool
  | .obj fields => fields.any (fun kv => kv.1 == key)
  | _ => false

/-- Python `x[key]` for a JSON object (dict); first binding wins. -/
def jsonGet (key : String) : Json → Json
  | .obj fields =>
    match fields.find? (fun kv => kv.1 == key) with
    | some kv => kv.2
    | none => Json.null
  | _ => Json.null

/-- Minimal JSON string escaping (quote and backslash), as `json.dumps`
performs on the string contents inspected here. -/
def jsonEscape (s : String) : String :=
  String.join (s.data.map (fun c =>
    if c = '"' then "\\\"" else if c = '\\' then "\\\\" else String.singleton c))

mutual

/-- `json.dumps` with its default separators: `", "` between items and
`": "` between a key and its value; braces are written via `\x7b`/`\x7d`. -/
def Json.dumps : Json → String
  | .null => "null"
  | .bool true => "true"
  | .bool false => "false"
  | .num n => toString n
  | .str s => "\"" ++ jsonEscape s ++ "\""
  | .arr l => "[" ++ Json.dumpsList l ++ "]"
  | .obj f => "\x7b" ++ Json.dumpsFields f ++ "\x7d"

/-- Comma-separated `json.dumps` of the elements of a JSON array. -/
def Json.dumpsList : List Json → String
  | [] => ""
  | [x] => Json.dumps x
  | x :: y :: xs => Json.dumps x ++ ", " ++ Json.dumpsList (y :: xs)

/-- Comma-separated `"key": value` renderings of a JSON object's fields. -/
def Json.dumpsFields : List (String × Json) → String
  | [] => ""
  | [(k, v)] => "\"" ++ jsonEscape k ++ "\": " ++ Json.dumps v
  | (k, v) :: y :: xs =>
    "\"" ++ jsonEscape k ++ "\": " ++ Json.dumps v ++ ", " ++ Json.dumpsFields (y :: xs)

end

mutual

/-- Python `repr` of a JSON-decoded value (dicts/lists print their elements
with `repr`; strings are single-quoted, `None`/`True`/`False` capitalised). -/
def pyRepr : Json → String
  | .null => "None"
  | .bool true => "True"
  | .bool false => "False"
  | .num n => toString n
  | .str s => "'" ++ s ++ "'"
  | .arr l => "[" ++ pyReprList l ++ "]"
  | .obj f => "\x7b" ++ pyReprFields f ++ "\x7d"

/-- Comma-separated `repr`s of a Python list's elements. -/
def pyReprList : List Json → String
  | [] => ""
  | [x] => pyRepr x
  | x :: y :: xs => pyRepr x ++ ", " ++ pyReprList (y :: xs)

/-- Comma-separated `'key': value` renderings of a Python dict's items. -/
def pyReprFields : List (String × Json) → String
  | [] => ""
  | [(k, v)] => "'" ++ k ++ "': " ++ pyRepr v
  | (k, v) :: y :: xs => "'" ++ k ++ "': " ++ pyRepr v ++ ", " ++ pyReprFields (y :: xs)

end

/-- Python `str` of a JSON-decoded value: a string prints itself, everything
else prints as its `repr`. -/
def pyStr : Json → String
  | .str s => s
  | j => pyRepr j

/-- Python `str.isnumeric` restricted to the ASCII strings produced here:
nonempty and all characters decimal digits. -/
def str_isnumeric (s : String) : Bool :=
  !s.isEmpty && s.data.all Char.isDigit

/-- Python `str.zfill`: left-pad with `'0'` to the given width. -/
def zfill (s : String) (width : Nat) : String :=
  if width ≤ s.length then s
  else String.mk (List.replicate (width - s.length) '0') ++ s

/-! Constants from the top of `ApiRequest.py`. -/

def DOWNLOADS_PER_DISK_WRITE : Nat := 40
def MAX_DOWNLOADS_PER_SECOND : Nat := 4
def MAX_ATTEMPTS : Nat := 3
def RATE_LIMITER_DELAY_SECONDS : Nat := 10
def RATE_LIMIT_EXCEEDED_STATUS_CODE : Nat := 429
def SUCCESSFUL_CALL_STATUS_CODE : Nat := 200

def JSON_COLUMNS : List String :=
  ["genres", "keywords", "production_countries", "production_companies",
   "spoken_languages"]

def KEYS_TO_DROP : List String :=
  ["adult", "backdrop_path", "belongs_to_collection", "imdb_id", "poster_path",
   "profile_path", "video"]

/-! The rate-limited retrying fetch, `make_request`. -/

/-- An HTTP response: status code and already-parsed JSON body
(`response.json()` returns the body). -/
structure HttpResponse where
  status : Nat
  body : Json

def was_successful (response : HttpResponse) : Bool :=
  response.status == SUCCESSFUL_CALL_STATUS_CODE

def was_rate_limited (response : HttpResponse) : Bool :=
  response.status == RATE_LIMIT_EXCEEDED_STATUS_CODE

/-- Observable outcome of one `make_request` call tree: the returned value
(`none` = Python `None`), how many HTTP GETs were issued, and the total
time slept in quarter-second units. -/
structure RequestOutcome where
  result : Option Json
  requests : Nat
  sleepQuarterSeconds : Nat

/-- One layer of the body of `make_request`: given the response to this
attempt's GET and the outcome of the recursive call, produce this call's
outcome.  Sleeps, in order: `RATE_LIMITER_DELAY_SECONDS` if rate limited,
then always `1 / MAX_DOWNLOADS_PER_SECOND` (one quarter-second unit), then
on a non-success a 1-second backoff before the recursive call. -/
def make_request_step (response : HttpResponse) (rest : RequestOutcome) :
    RequestOutcome :=
  let rateSleep : Nat :=
    if was_rate_limited response then 4 * RATE_LIMITER_DELAY_SECONDS else 0
  if was_successful response then
    ⟨some response.body, 1, rateSleep + 1⟩
  else
    ⟨rest.result, 1 + rest.requests, rateSleep + 1 + 4 + rest.sleepQuarterSeconds⟩

/-- Structural core of `make_request`: `fuel` counts the attempts still
allowed, i.e. `MAX_ATTEMPTS - prior_attempts`; `fuel = 0` is exactly the
guard `prior_attempts >= MAX_ATTEMPTS`, which returns `None` at once. -/
def make_request_go (server : Nat → HttpResponse) : Nat → Nat → RequestOutcome
  | 0, _ => ⟨none, 0, 0⟩
  | fuel + 1, prior_attempts =>
    make_request_step (server prior_attempts)
      (make_request_go server fuel (prior_attempts + 1))

/-- `make_request(call_url, prior_attempts)`.  The `server` oracle gives the
response to the GET issued at attempt index `prior_attempts` (each retry
issues a fresh GET at the next index). -/
def make_request (server : Nat → HttpResponse) (prior_attempts : Nat) :
    RequestOutcome :=
  make_request_go server (MAX_ATTEMPTS - prior_attempts) prior_attempts

/-! The snapshot-name builder, `make_category_id_url_suffix`. -/

/-- The fields of `pd.datetime.today()` that the source reads. -/
structure Date where
  year : Nat
  month : Nat
  day : Nat

/-- `make_category_id_url_suffix(category, extension)`: joins
`[category, "ids", month, day, year]` with `"_"`, where `month` is today's
month zero-padded to two digits, `day` is today's day-of-month **minus one**
zero-padded to two digits (no month/year rollover), and `year` is today's
year; then appends `"." + extension`. -/
def make_category_id_url_suffix (today : Date) (category : String)
    (extension : String) : String :=
  let year := toString today.year
  let month := zfill (toString today.month) 2
  let day := zfill (toString (today.day - 1)) 2
  String.intercalate "_" [category, "ids", month, day, year] ++ "." ++ extension

/-! A small model of the pandas data frames the source manipulates: a list of
column labels plus one association list of cell values per row.  A cell
absent from a row reads as `Json.null` (pandas fills missing keys with NaN,
and the source treats NaN/None uniformly through `isnull`). -/

/-- One row: field name to value. -/
abbrev Row := List (String × Json)

/-- Cell lookup, first binding wins; a missing field reads as null
(pandas NaN). -/
def Row.get : Row → String → Json
  | [], _ => Json.null
  | kv :: r, k => if kv.1 == k then kv.2 else Row.get r k

/-- Set (or append at the end, as pandas does for a new column) one cell. -/
def Row.set (r : Row) (k : String) (v : Json) : Row :=
  if r.any (fun kv => kv.1 == k) then
    r.map (fun kv => if kv.1 == k then (k, v) else kv)
  else r ++ [(k, v)]

/-- Remove one field. -/
def Row.delete (r : Row) (k : String) : Row :=
  r.filter (fun kv => kv.1 ≠ k)

/-- Restrict a row to the given fields, in their order, null-filling gaps. -/
def Row.select (cols : List String) (r : Row) : Row :=
  cols.map (fun c => (c, r.get c))

/-- Rename one field label, keeping its value. -/
def Row.renameKey (oldKey newKey : String) (r : Row) : Row :=
  r.map (fun kv => if kv.1 == oldKey then (newKey, kv.2) else kv)

/-- A pandas data frame: ordered column labels and rows. -/
structure DataFrame where
  columns : List String
  rows : List Row

/-- Python `x in df` for a data frame iterates the column labels — this is
the membership test `download_ids` uses against `existing_ids`. -/
def DataFrame.pyContains (df : DataFrame) (s : String) : Bool :=
  df.columns.contains s

/-- Insert a record's keys, in order, into an accumulated column list,
skipping those already present. -/
def union_columns_insert (acc : List String) (r : Row) : List String :=
  r.foldl (fun acc kv => if acc.contains kv.1 then acc else acc ++ [kv.1]) acc

/-- `pd.DataFrame(list_of_dicts)`: columns are the union of the records'
keys in order of first appearance; each row is normalized to all columns. -/
def DataFrame.ofRecords (entries : List Row) : DataFrame :=
  let cols := entries.foldl union_columns_insert []
  ⟨cols, entries.map (Row.select cols)⟩

/-- `df[[c1, ..., cn]]`: keep the given columns, in the given order. -/
def DataFrame.selectCols (df : DataFrame) (cols : List String) : DataFrame :=
  ⟨cols, df.rows.map (Row.select cols)⟩

/-- `df[mask]` for a row predicate. -/
def DataFrame.filterRows (df : DataFrame) (p : Row → Bool) : DataFrame :=
  ⟨df.columns, df.rows.filter p⟩

/-- `df.rename(columns={old: new})`. -/
def DataFrame.renameCol (df : DataFrame) (oldKey newKey : String) : DataFrame :=
  ⟨df.columns.map (fun c => if c == oldKey then newKey else c),
   df.rows.map (Row.renameKey oldKey newKey)⟩

/-- `df[c] = df.apply(... row ...)`: set column `c` from a per-row function
(appended as last column when new, as pandas does). -/
def DataFrame.setCol (df : DataFrame) (c : String) (f : Row → Json) : DataFrame :=
  ⟨if df.columns.contains c then df.columns else df.columns ++ [c],
   df.rows.map (fun r => r.set c (f r))⟩

/-- `del df[c]`. -/
def DataFrame.deleteCol (df : DataFrame) (c : String) : DataFrame :=
  ⟨df.columns.filter (fun x => x ≠ c), df.rows.map (fun r => r.delete c)⟩

/-! `unpack_credits` and `export_data`. -/

/-- `Json.null` test — what `df.id.isnull()` sees per cell (NaN and None
are conflated into `Json.null` by the model). -/
def Json.isNull : Json → Bool
  | .null => true
  | _ => false

/-- The list comprehension over a credit sub-list: keep every object's
fields except `profile_path`.  (The source applies it only to lists of
objects; other shapes are returned unchanged here.) -/
def strip_profile_path : Json → Json
  | .arr items => .arr (items.map (fun i =>
      match i with
      | .obj fields => .obj (fields.filter (fun kv => kv.1 ≠ "profile_path"))
      | j => j))
  | j => j

/-- The per-row value of credit column `column`, composing the three
successive `apply`s of the source: fetch `x[column]` from the `credits`
cell defaulting to `[]`, strip `profile_path`, and `json.dumps`. -/
def credit_column_value (column : String) (r : Row) : Json :=
  let x := r.get "credits"
  Json.str (Json.dumps (strip_profile_path
    (if jsonMember column x then jsonGet column x else Json.arr [])))

/-- `unpack_credits(df)`: build the credits frame from
`df[['credits', 'id', 'title']]`, rename `id` to `movie_id`, add the
serialized `cast` and `crew` columns, delete the `credits` column from the
credits frame **and from the caller's `df`** (`del df['credits']`), and
return the pair `(df, credits)`. -/
def unpack_credits (df : DataFrame) : DataFrame × DataFrame :=
  let credits := (df.selectCols ["credits", "id", "title"]).renameCol "id" "movie_id"
  let credits := credits.setCol "cast" (credit_column_value "cast")
  let credits := credits.setCol "crew" (credit_column_value "crew")
  let credits := credits.deleteCol "credits"
  (df.deleteCol "credits", credits)

/-- One `to_csv(..., mode='a+', header=needs_header)` append: the frame
written and whether a header line is written. -/
structure CsvWrite where
  frame : DataFrame
  header : Bool

/-- Observable effect of one non-empty `export_data` call: the append to
`<category>_data.csv`, the append to `<category>_credits.csv`, and the
number of null-identifier entries dropped (a drop message is printed iff
that count is positive). -/
structure ExportResult where
  dataWrite : CsvWrite
  creditsWrite : CsvWrite
  droppedNullIds : Nat

/-- `export_data(category, all_entries)`.  `data_csv_exists` and
`credits_csv_exists` model `os.path.exists` for the two output files; the
source consults only the former (`credits_csv_exists` is never read).
Returns `none` when the batch is empty (no write happens).  `JSON_COLUMNS`
is a Python set; its iteration order does not affect the result since the
per-column serializations touch distinct columns. -/
def export_data (data_csv_exists : Bool) (_credits_csv_exists : Bool)
    (all_entries : List Row) : Option ExportResult :=
  if all_entries.isEmpty then none
  else
    let df := DataFrame.ofRecords all_entries
    let df := df.selectCols (df.columns.filter (fun x => !KEYS_TO_DROP.contains x))
    let nullCount := (df.rows.filter (fun r => (r.get "id").isNull)).length
    let df := if nullCount > 0 then df.filterRows (fun r => !(r.get "id").isNull) else df
    let df := df.filterRows (fun r => str_isnumeric (pyStr (r.get "id")))
    let pair := unpack_credits df
    let credits := pair.2
    let df := pair.1.setCol "keywords" (fun r =>
      if jsonMember "keywords" (r.get "keywords") then jsonGet "keywords" (r.get "keywords")
      else Json.arr [])
    let df := JSON_COLUMNS.foldl
      (fun d column => d.setCol column (fun r => Json.str (Json.dumps (r.get column)))) df
    let needs_header := !data_csv_exists
    some ⟨⟨df, needs_header⟩, ⟨credits, needs_header⟩, nullCount⟩

/-! The fetch loop, `download_ids`. -/

/-- Python truthiness of `current_data` in `download_ids`: `None` (exhausted
retries) and any falsy JSON body are rejected alike. -/
def pyTruthy : Option Json → Bool
  | none => false
  | some j => !j.pyFalsy

/-- Observable state of the fetch loop: the cumulative success `counter`,
the pending batch `all_entries`, the batches handed to `export_data` in
order, and the identifiers whose fetch was logged as failed. -/
structure FetchLoopState where
  counter : Nat
  all_entries : List Json
  exports : List (List Json)
  failures : List Nat
deriving Repr

/-- The `for movie_id in id_list:` loop of `download_ids`.  `fetch` is the
outcome of `make_detail_request` per identifier (`none` = exhausted
retries). -/
def download_ids_loop (fetch : Nat → Option Json) :
    List Nat → FetchLoopState → FetchLoopState
  | [], s => s
  | movie_id :: rest, s =>
    match fetch movie_id with
    | some d =>
      if d.pyFalsy then
        download_ids_loop fetch rest
          ⟨s.counter, s.all_entries, s.exports, s.failures ++ [movie_id]⟩
      else
        let counter := s.counter + 1
        let all_entries := s.all_entries ++ [d]
        if counter % DOWNLOADS_PER_DISK_WRITE == 0 then
          download_ids_loop fetch rest ⟨counter, [], s.exports ++ [all_entries], s.failures⟩
        else
          download_ids_loop fetch rest ⟨counter, all_entries, s.exports, s.failures⟩
    | none =>
      download_ids_loop fetch rest
        ⟨s.counter, s.all_entries, s.exports, s.failures ++ [movie_id]⟩

/-- The preload dedup step of `download_ids`: keep `x` when
`str(x) not in existing_ids` — membership tested against the data frame,
i.e. against its column labels.  (The materialized
`set(existing_ids.id.values.tolist())` on the preceding source line is
built and immediately discarded, so it plays no part.) -/
def preload_filter (existing_ids : DataFrame) (id_list : List Nat) : List Nat :=
  id_list.filter (fun x => !existing_ids.pyContains (toString x))

/-- `download_ids(category, id_list)`.  `data_csv_exists` models
`os.path.exists(category + '_data.csv')`; `existing_ids` the frame read by
`pd.read_csv(..., usecols=['id'], dtype=object)` when that file exists.
After the loop, the final `export_data(category, all_entries)` receives the
remaining batch, so it is recorded as a last export. -/
def download_ids (data_csv_exists : Bool) (existing_ids : DataFrame)
    (fetch : Nat → Option Json) (id_list : List Nat) : FetchLoopState :=
  let id_list :=
    if data_csv_exists then preload_filter existing_ids id_list else id_list
  let s := download_ids_loop fetch id_list ⟨0, [], [], []⟩
  ⟨s.counter, s.all_entries, s.exports ++ [s.all_entries], s.failures⟩

/-! Specification-side descriptions used to state the batching claims. -/

/-- The successfully fetched (truthy) records of a run, in input order. -/
def fetched_successes (fetch : Nat → Option Json) (id_list : List Nat) : List Json :=
  id_list.filterMap (fun i =>
    match fetch i with
    | some d => if d.pyFalsy then none else some d
    | none => none)

/-- Split a list into consecutive blocks of `DOWNLOADS_PER_DISK_WRITE`,
the final block being the (possibly empty) remainder. -/
def chunksOfBatchSize (l : List Json) : List (List Json) :=
  if l.length < DOWNLOADS_PER_DISK_WRITE then [l]
  else l.take DOWNLOADS_PER_DISK_WRITE :: chunksOfBatchSize (l.drop DOWNLOADS_PER_DISK_WRITE)
termination_by l.length
decreasing_by
  simp only [List.length_drop, DOWNLOADS_PER_DISK_WRITE] at *
  omega

/-- Structural helper: chunks of the tail given a pending partial block. -/
def chunksAux (pending : List Json) : List Json → List (List Json)
  | [] => [pending]
  | x :: xs =>
    let b := pending ++ [x]
    if b.length == DOWNLOADS_PER_DISK_WRITE then b :: chunksAux [] xs
    else chunksAux b xs

/-- The per-identifier fetch outcome with falsy bodies collapsed into `none`
— the quotient through which `download_ids` observes `fetch`. -/
def effective_fetch (fetch : Nat → Option Json) (i : Nat) : Option Json :=
  match fetch i with
  | some d => if d.pyFalsy then none else some d
  | none => none

/-- JSON object test. -/
def isObjJson : Json → Bool
  | .obj _ => true
  | _ => false

/-- JSON array-of-objects test (the shape of a `cast`/`crew` value). -/
def isArrOfObj : Json → Bool
  | .arr l => l.all isObjJson
  | _ => false

/-- Key-presence test on a raw record. -/
def Row.hasKey (r : Row) (k : String) : Bool :=
  r.any (fun kv => kv.1 == k)

/-- Shape of a raw detail record as the export path relies on it: a dict
`credits` whose `cast`/`crew` members, when present, are arrays of objects;
a `title` field; a dict `keywords` field; and every `JSON_COLUMNS` field
present.  (On records outside this shape the Python source raises instead
of writing.) -/
def detail_record_shape (r : Row) : Bool :=
  (match r.get "credits" with
   | .obj fields =>
     (!jsonMember "cast" (.obj fields) || isArrOfObj (jsonGet "cast" (.obj fields))) &&
     (!jsonMember "crew" (.obj fields) || isArrOfObj (jsonGet "crew" (.obj fields)))
   | _ => false) &&
  r.hasKey "title" &&
  isObjJson (r.get "keywords") &&
  JSON_COLUMNS.all (fun c => r.hasKey c)

/-- A minimal well-formed detail record carrying the given identifier
value. -/
def sample_detail_record (idv : Json) : Row :=
  [("id", idv), ("title", Json.str "T"), ("credits", Json.obj []),
   ("keywords", Json.obj [("keywords", Json.arr [])]), ("genres", Json.arr []),
   ("production_countries", Json.arr []), ("production_companies", Json.arr []),
   ("spoken_languages", Json.arr [])]

/-- A batch of 5 raw detail records, exactly one with a null identifier. -/
def sample_batch_of_five : List Row :=
  [sample_detail_record (Json.num 1), sample_detail_record (Json.num 2),
   sample_detail_record Json.null, sample_detail_record (Json.num 4),
   sample_detail_record (Json.num 5)]

/-! Lemmas and claim theorems. -/

theorem was_successful_false {server : Nat → HttpResponse} {i : Nat}
    (h : (server i).status ≠ 200) : was_successful (server i) = false := by
  simpa [was_successful, SUCCESSFUL_CALL_STATUS_CODE] using h

/-- C2: when every GET answered within the attempt budget is a non-200,
non-429 status, `make_request` starting at `prior_attempts = 0` returns
`None` after issuing exactly `MAX_ATTEMPTS = 3` requests; and any call with
`prior_attempts ≥ 3` returns `None` immediately, issuing no request.  The
witness instantiates the 500, 500, 500, 200 server. -/
theorem C2_make_request_exhausts_after_three_attempts
    (server : Nat → HttpResponse)
    (h : ∀ i, i < MAX_ATTEMPTS → (server i).status ≠ 200 ∧ (server i).status ≠ 429)
    (p : Nat) (hp : MAX_ATTEMPTS ≤ p) :
    (make_request server 0).result = none ∧
    (make_request server 0).requests = MAX_ATTEMPTS ∧
    make_request server p = ⟨none, 0, 0⟩ := by
  have h0 : was_successful (server 0) = false := was_successful_false (h 0 (by decide)).1
  have h1 : was_successful (server 1) = false := was_successful_false (h 1 (by decide)).1
  have h2 : was_successful (server 2) = false := was_successful_false (h 2 (by decide)).1
  refine ⟨?_, ?_, ?_⟩
  · simp [make_request, MAX_ATTEMPTS, make_request_go, make_request_step, h0, h1, h2]
  · simp [make_request, MAX_ATTEMPTS, make_request_go, make_request_step, h0, h1, h2]
  · simp [make_request, Nat.sub_eq_zero_of_le hp, make_request_go]

/-- Witness for C2: a server answering 500, 500, 500, 200 yields `None`
with exactly 3 requests issued, and a call at `prior_attempts = 3` issues
none. -/
theorem C2_make_request_exhausts_after_three_attempts_witness :
    (make_request (fun i => if i < 3 then ⟨500, Json.null⟩ else ⟨200, Json.obj []⟩) 0).result
        = none ∧
    (make_request (fun i => if i < 3 then ⟨500, Json.null⟩ else ⟨200, Json.obj []⟩) 0).requests
        = MAX_ATTEMPTS ∧
    make_request (fun i => if i < 3 then ⟨500, Json.null⟩ else ⟨200, Json.obj []⟩) 3
        = ⟨none, 0, 0⟩ :=
  C2_make_request_exhausts_after_three_attempts
    (fun i => if i < 3 then ⟨500, Json.null⟩ else ⟨200, Json.obj []⟩)
    (by decide) 3 (by decide)

/-- C4: if the first response is a 429 and the second a 200, `make_request`
returns the parsed JSON body of the 200 response, and the time slept is the
10-second cooldown plus the quarter-second inter-request sleeps and the
1-second backoff — in particular at least `RATE_LIMITER_DELAY_SECONDS`
(40 quarter-second units). -/
theorem C4_make_request_rate_limit_then_success
    (server : Nat → HttpResponse)
    (h0 : (server 0).status = RATE_LIMIT_EXCEEDED_STATUS_CODE)
    (h1 : (server 1).status = SUCCESSFUL_CALL_STATUS_CODE) :
    (make_request server 0).result = some (server 1).body ∧
    (make_request server 0).sleepQuarterSeconds
        = 4 * RATE_LIMITER_DELAY_SECONDS + 1 + 4 + 1 ∧
    4 * RATE_LIMITER_DELAY_SECONDS ≤ (make_request server 0).sleepQuarterSeconds := by
  have hrl : was_rate_limited (server 0) = true := by
    simp [was_rate_limited, h0]
  have hns : was_successful (server 0) = false := by
    simp [was_successful, h0, RATE_LIMIT_EXCEEDED_STATUS_CODE, SUCCESSFUL_CALL_STATUS_CODE]
  have hs : was_successful (server 1) = true := by
    simp [was_successful, h1]
  have hnr : was_rate_limited (server 1) = false := by
    simp [was_rate_limited, h1, RATE_LIMIT_EXCEEDED_STATUS_CODE, SUCCESSFUL_CALL_STATUS_CODE]
  refine ⟨?_, ?_, ?_⟩ <;>
    simp [make_request, MAX_ATTEMPTS, make_request_go, make_request_step, hrl, hns, hs, hnr,
      RATE_LIMITER_DELAY_SECONDS]

/-- Witness for C4: a concrete 429-then-200 server returns the 200 body and
sleeps 46 quarter-seconds, at least the 40 of the cooldown. -/
theorem C4_make_request_rate_limit_then_success_witness :
    (make_request (fun i => if i = 0 then ⟨429, Json.null⟩ else ⟨200, Json.str "ok"⟩) 0).result
        = some (Json.str "ok") ∧
    (make_request (fun i => if i = 0 then ⟨429, Json.null⟩ else ⟨200, Json.str "ok"⟩)
        0).sleepQuarterSeconds = 4 * RATE_LIMITER_DELAY_SECONDS + 1 + 4 + 1 ∧
    4 * RATE_LIMITER_DELAY_SECONDS ≤
      (make_request (fun i => if i = 0 then ⟨429, Json.null⟩ else ⟨200, Json.str "ok"⟩)
        0).sleepQuarterSeconds :=
  C4_make_request_rate_limit_then_success
    (fun i => if i = 0 then ⟨429, Json.null⟩ else ⟨200, Json.str "ok"⟩) rfl rfl

/-- C7: the header decision of `export_data` is `not os.path.exists(<category>_data.csv)`,
taken once: both the primary and the credits append carry exactly that flag,
and the result does not depend on whether the credits file exists (its
existence is never checked). -/
theorem C7_header_decision_shared_and_primary_only
    (data_csv_exists c c' : Bool) (all_entries : List Row) :
    export_data data_csv_exists c all_entries
        = export_data data_csv_exists c' all_entries ∧
    (export_data data_csv_exists c all_entries).map
        (fun res => (res.dataWrite.header, res.creditsWrite.header))
      = (if all_entries.isEmpty then none
         else some (!data_csv_exists, !data_csv_exists)) := by
  refine ⟨rfl, ?_⟩
  by_cases he : all_entries.isEmpty <;> simp [export_data, he]

/-- C8: the snapshot name is
`<category>_ids_<month zero-padded>_<day-of-month minus one, zero-padded>_<year>.json`
with today's month and year unmodified (no rollover); on the first day of a
month the day component is the invalid `"00"`. -/
theorem C8_snapshot_name_uses_day_minus_one_no_rollover
    (today : Date) (category : String) :
    (make_category_id_url_suffix today category "json"
      = category ++ "_ids_" ++ zfill (toString today.month) 2 ++ "_"
          ++ zfill (toString (today.day - 1)) 2 ++ "_" ++ toString today.year ++ ".json") ∧
    (today.day = 1 →
      make_category_id_url_suffix today category "json"
        = category ++ "_ids_" ++ zfill (toString today.month) 2 ++ "_00_"
            ++ toString today.year ++ ".json") := by
  have h00 : zfill (toString (0 : Nat)) 2 = "00" := rfl
  constructor
  · apply String.ext
    simp [make_category_id_url_suffix, String.intercalate, String.intercalate.go]
  · intro h
    apply String.ext
    simp [make_category_id_url_suffix, String.intercalate, String.intercalate.go, h, h00]

/-- Witness for C8: on 2026-03-01 the movie snapshot name has day `"00"`. -/
theorem C8_snapshot_name_uses_day_minus_one_no_rollover_witness :
    ((⟨2026, 3, 1⟩ : Date).day = 1) ∧
    make_category_id_url_suffix ⟨2026, 3, 1⟩ "movie" "json"
      = "movie" ++ "_ids_" ++ zfill (toString (⟨2026, 3, 1⟩ : Date).month) 2 ++ "_00_"
          ++ toString (⟨2026, 3, 1⟩ : Date).year ++ ".json" :=
  ⟨rfl, (C8_snapshot_name_uses_day_minus_one_no_rollover ⟨2026, 3, 1⟩ "movie").2 rfl⟩

theorem Row.get_cons (kv : String × Json) (r : Row) (k : String) :
    Row.get (kv :: r) k = if kv.1 == k then kv.2 else Row.get r k := rfl

theorem Row.delete_cons (kv : String × Json) (r : Row) (c : String) :
    Row.delete (kv :: r) c
      = if kv.1 = c then r.delete c else kv :: r.delete c := by
  by_cases h : kv.1 = c <;> simp [Row.delete, List.filter_cons, h]

theorem Row.get_delete_ne (r : Row) (c k : String) (h : k ≠ c) :
    (r.delete c).get k = r.get k := by
  induction r with
  | nil => rfl
  | cons kv r ih =>
    rw [Row.delete_cons]
    by_cases h1 : kv.1 = c
    · have hck : ¬(c = k) := fun e => h e.symm
      simp [h1, Row.get, hck, ih]
    · by_cases h2 : kv.1 = k <;> simp [h1, h2, h, Row.get, ih]

theorem Row.get_delete_self (r : Row) (c : String) :
    (r.delete c).get c = Json.null := by
  induction r with
  | nil => rfl
  | cons kv r ih =>
    rw [Row.delete_cons]
    by_cases h1 : kv.1 = c
    · simpa [h1] using ih
    · simp [h1, Row.get, ih]

/-- C9: `unpack_credits` removes the `credits` column from the caller's
primary frame itself (`del df['credits']` acts on the argument): the frame
returned in the first component is the caller's frame minus exactly the
`credits` column — every row keeps every other field's value, and the
`credits` field reads as missing afterwards. -/
theorem C9_unpack_credits_deletes_credits_from_caller (df : DataFrame)
    (_hc : df.columns.contains "credits" = true) :
    (unpack_credits df).1.columns = df.columns.filter (fun x => x ≠ "credits") ∧
    (unpack_credits df).1.rows = df.rows.map (fun r => r.delete "credits") ∧
    (∀ r : Row, ∀ k : String, k ≠ "credits" → (r.delete "credits").get k = r.get k) ∧
    (∀ r : Row, (r.delete "credits").get "credits" = Json.null) := by
  refine ⟨rfl, rfl, ?_, ?_⟩
  · intro r k hk
    exact Row.get_delete_ne r "credits" k hk
  · intro r
    exact Row.get_delete_self r "credits"

/-- Witness for C9 on a one-row frame with a `credits` and an `id` column. -/
theorem C9_unpack_credits_deletes_credits_from_caller_witness :
    ((⟨["credits", "id"], [[("credits", Json.obj []), ("id", Json.num 603)]]⟩ :
        DataFrame).columns.contains "credits" = true) ∧
    (unpack_credits ⟨["credits", "id"],
        [[("credits", Json.obj []), ("id", Json.num 603)]]⟩).1.columns
      = (["credits", "id"] : List String).filter (fun x => x ≠ "credits") :=
  ⟨by decide,
   (C9_unpack_credits_deletes_credits_from_caller
     ⟨["credits", "id"], [[("credits", Json.obj []), ("id", Json.num 603)]]⟩
     (by decide)).1⟩


theorem Row.get_map_update_self (r : Row) (k : String) (v : Json)
    (hex : r.any (fun kv => kv.1 == k) = true) :
    Row.get (r.map (fun kv => if kv.1 == k then (k, v) else kv)) k = v := by
  induction r with
  | nil => simp at hex
  | cons kv r ih =>
    by_cases h1 : kv.1 = k
    · simp [Row.get, h1]
    · have hrest : r.any (fun kv => kv.1 == k) = true := by
        simpa [List.any_cons, h1] using hex
      simpa [Row.get, h1] using ih hrest

theorem Row.get_map_update_ne (r : Row) (k k' : String) (v : Json) (h : k' ≠ k) :
    Row.get (r.map (fun kv => if kv.1 == k then (k, v) else kv)) k' = r.get k' := by
  induction r with
  | nil => rfl
  | cons kv r ih =>
    by_cases h1 : kv.1 = k
    · have hkk : ¬(k = k') := fun e => h e.symm
      have hnk : ¬(kv.1 = k') := by rw [h1]; exact hkk
      simpa [Row.get, h1, hkk, hnk] using ih
    · by_cases h2 : kv.1 = k'
      · simp [Row.get, h1, h2, h]
      · simpa [Row.get, h1, h2] using ih

theorem Row.get_append_single_self (r : Row) (k : String) (v : Json)
    (hex : r.any (fun kv => kv.1 == k) = false) :
    Row.get (r ++ [(k, v)]) k = v := by
  induction r with
  | nil => simp [Row.get]
  | cons kv r ih =>
    by_cases h1 : kv.1 = k
    · simp [List.any_cons, h1] at hex
    · have hrest : r.any (fun kv => kv.1 == k) = false := by
        simpa [List.any_cons, h1] using hex
      simpa [Row.get, h1] using ih hrest

theorem Row.get_append_single_ne (r : Row) (k k' : String) (v : Json)
    (h : k' ≠ k) :
    Row.get (r ++ [(k, v)]) k' = r.get k' := by
  induction r with
  | nil =>
    have hkk : ¬(k = k') := fun e => h e.symm
    simp [Row.get, hkk]
  | cons kv r ih =>
    by_cases h2 : kv.1 = k'
    · simp [Row.get, h2]
    · simpa [Row.get, h2] using ih

theorem Row.get_set_self (r : Row) (k : String) (v : Json) :
    (r.set k v).get k = v := by
  unfold Row.set
  by_cases hex : r.any (fun kv => kv.1 == k)
  · rw [if_pos hex]
    exact Row.get_map_update_self r k v hex
  · rw [if_neg hex]
    exact Row.get_append_single_self r k v (Bool.eq_false_iff.mpr hex)

theorem Row.get_set_ne (r : Row) (k k' : String) (v : Json) (h : k' ≠ k) :
    (r.set k v).get k' = r.get k' := by
  unfold Row.set
  by_cases hex : r.any (fun kv => kv.1 == k)
  · rw [if_pos hex]
    exact Row.get_map_update_ne r k k' v h
  · rw [if_neg hex]
    exact Row.get_append_single_ne r k k' v h

theorem Row.get_renameKey_other (r : Row) (oldKey newKey k : String)
    (h1 : k ≠ oldKey) (h2 : k ≠ newKey) :
    (r.renameKey oldKey newKey).get k = r.get k := by
  induction r with
  | nil => rfl
  | cons kv r ih =>
    unfold Row.renameKey at *
    by_cases ho : kv.1 = oldKey
    · have hok : ¬(oldKey = k) := fun e => h1 e.symm
      have hnk : ¬(newKey = k) := fun e => h2 e.symm
      simpa [Row.get, ho, hok, hnk] using ih
    · by_cases hk2 : kv.1 = k
      · simp [Row.get, ho, hk2, h1]
      · simpa [Row.get, ho, hk2] using ih

theorem Row.get_select (cols : List String) (r : Row) (k : String) :
    (Row.select cols r).get k
      = if cols.contains k then r.get k else Json.null := by
  induction cols with
  | nil => rfl
  | cons c cs ih =>
    unfold Row.select at *
    by_cases hc : c = k
    · simp [Row.get, hc, List.contains_cons]
    · have hc2 : ¬(k = c) := fun e => hc e.symm
      simpa [Row.get, hc, hc2, List.contains_cons] using ih

theorem unpack_credits_row (df : DataFrame) (i : Nat) (hi : i < df.rows.length)
    (h2 : i < (unpack_credits df).2.rows.length) :
    (unpack_credits df).2.rows[i]
      = Row.delete
          (Row.set
            (Row.set ((Row.select ["credits", "id", "title"] df.rows[i]).renameKey
                "id" "movie_id")
              "cast"
              (credit_column_value "cast"
                ((Row.select ["credits", "id", "title"] df.rows[i]).renameKey
                  "id" "movie_id")))
            "crew"
            (credit_column_value "crew"
              (Row.set ((Row.select ["credits", "id", "title"] df.rows[i]).renameKey
                  "id" "movie_id")
                "cast"
                (credit_column_value "cast"
                  ((Row.select ["credits", "id", "title"] df.rows[i]).renameKey
                    "id" "movie_id")))))
          "credits" := by
  simp only [unpack_credits, DataFrame.selectCols, DataFrame.renameCol, DataFrame.setCol,
    DataFrame.deleteCol, List.getElem_map]

/-- C6: in the credits table produced by `unpack_credits`, each record's
`cast`/`crew` cell is the `json.dumps` serialization of the record's
corresponding credit sub-list with `profile_path` stripped from every
member, defaulting to the serialization of the empty list when the credits
container lacks that key. -/
theorem C6_unpack_credits_serializes_stripped_sublists
    (df : DataFrame) (i : Nat) (hi : i < df.rows.length)
    (h2 : i < (unpack_credits df).2.rows.length)
    (fields : List (String × Json))
    (hcr : (df.rows[i]).get "credits" = Json.obj fields)
    (column : String) (hcol : column = "cast" ∨ column = "crew") :
    ((unpack_credits df).2.rows[i]).get column
      = Json.str (Json.dumps (strip_profile_path
          (if jsonMember column (Json.obj fields) then jsonGet column (Json.obj fields)
           else Json.arr []))) ∧
    (jsonMember column (Json.obj fields) = false →
      ((unpack_credits df).2.rows[i]).get column = Json.str "[]") := by
  have hrow := unpack_credits_row df i hi h2
  have hr1 : ((Row.select ["credits", "id", "title"] df.rows[i]).renameKey
      "id" "movie_id").get "credits" = Json.obj fields := by
    rw [Row.get_renameKey_other _ "id" "movie_id" "credits" (by decide) (by decide),
      Row.get_select]
    simpa using hcr
  have hmain : ((unpack_credits df).2.rows[i]).get column
      = Json.str (Json.dumps (strip_profile_path
          (if jsonMember column (Json.obj fields) then jsonGet column (Json.obj fields)
           else Json.arr []))) := by
    rcases hcol with rfl | rfl
    · rw [hrow, Row.get_delete_ne _ "credits" "cast" (by decide),
        Row.get_set_ne _ "crew" "cast" _ (by decide), Row.get_set_self]
      unfold credit_column_value
      rw [hr1]
    · rw [hrow, Row.get_delete_ne _ "credits" "crew" (by decide), Row.get_set_self]
      unfold credit_column_value
      rw [Row.get_set_ne _ "cast" "credits" _ (by decide), hr1]
  refine ⟨hmain, fun hm => ?_⟩
  rw [hmain, hm]
  rfl

/-- Witness for C6: the claim's concrete record, whose credits container is
`\x7b"cast": [\x7b"profile_path": "/x.jpg", "name": "A"\x7d], "crew": []\x7d`;
its serialized `cast` text is exactly `[\x7b"name": "A"\x7d]`. -/
theorem C6_unpack_credits_serializes_stripped_sublists_witness :
    (((⟨["credits", "id", "title"],
        [[("credits", Json.obj
            [("cast", Json.arr [Json.obj [("profile_path", Json.str "/x.jpg"),
                ("name", Json.str "A")]]),
             ("crew", Json.arr [])]),
          ("id", Json.num 603), ("title", Json.str "A")]]⟩ : DataFrame).rows[0]).get "credits"
      = Json.obj
          [("cast", Json.arr [Json.obj [("profile_path", Json.str "/x.jpg"),
              ("name", Json.str "A")]]),
           ("crew", Json.arr [])]) ∧
    ((unpack_credits ⟨["credits", "id", "title"],
        [[("credits", Json.obj
            [("cast", Json.arr [Json.obj [("profile_path", Json.str "/x.jpg"),
                ("name", Json.str "A")]]),
             ("crew", Json.arr [])]),
          ("id", Json.num 603), ("title", Json.str "A")]]⟩).2.rows[0]).get "cast"
      = Json.str "[\x7b\"name\": \"A\"\x7d]" :=
  ⟨rfl,
   ((C6_unpack_credits_serializes_stripped_sublists
      ⟨["credits", "id", "title"],
        [[("credits", Json.obj
            [("cast", Json.arr [Json.obj [("profile_path", Json.str "/x.jpg"),
                ("name", Json.str "A")]]),
             ("crew", Json.arr [])]),
          ("id", Json.num 603), ("title", Json.str "A")]]⟩
      0 (by decide) (by decide)
      [("cast", Json.arr [Json.obj [("profile_path", Json.str "/x.jpg"),
          ("name", Json.str "A")]]),
       ("crew", Json.arr [])]
      rfl "cast" (Or.inl rfl)).1).trans rfl⟩

theorem digitChar_isDigit : ∀ m, m < 10 → (Nat.digitChar m).isDigit = true := by decide

theorem toDigitsCore_all_digits (fuel : Nat) : ∀ (n : Nat) (ds : List Char),
    (∀ c ∈ ds, c.isDigit = true) →
    ∀ c ∈ Nat.toDigitsCore 10 fuel n ds, c.isDigit = true := by
  induction fuel with
  | zero =>
    intro n ds h c hc
    exact h c hc
  | succ fuel ih =>
    intro n ds h c hc
    have hd : (Nat.digitChar (n % 10)).isDigit = true :=
      digitChar_isDigit _ (Nat.mod_lt _ (by decide))
    have hcons : ∀ x ∈ Nat.digitChar (n % 10) :: ds, x.isDigit = true := by
      intro x hx
      rcases List.mem_cons.mp hx with rfl | hx
      · exact hd
      · exact h x hx
    by_cases h0 : n / 10 = 0
    · simp only [Nat.toDigitsCore, h0, if_true] at hc
      exact hcons c hc
    · simp only [Nat.toDigitsCore, h0, if_false] at hc
      exact ih (n / 10) _ hcons c hc

/-- The decimal rendering of a natural number consists of digits, so it is
never the column label `"id"`. -/
theorem natToString_ne_id (n : Nat) : toString n ≠ "id" := by
  intro h
  have hall : ∀ c ∈ Nat.toDigits 10 n, c.isDigit = true :=
    toDigitsCore_all_digits (n + 1) n [] (by intro c hc; simp at hc)
  have h2 : String.mk (Nat.toDigits 10 n) = String.mk ['i', 'd'] := h
  have hdata : Nat.toDigits 10 n = ['i', 'd'] := by
    simpa using congrArg String.data h2
  have hi := hall 'i' (by rw [hdata]; simp)
  exact absurd hi (by decide)

/-- C1: when the primary output file exists, its identifier frame is read
with `usecols=['id']`, so the frame's columns are exactly `["id"]`; the
membership test `str(x) not in existing_ids` checks `str(x)` against those
column labels, and a numeric identifier's string form is never `"id"`, so
the preload dedup filter keeps every identifier and `download_ids` behaves
exactly as if the file did not exist. -/
theorem C1_preload_dedup_filter_is_noop (existing_ids : DataFrame)
    (h : existing_ids.columns = ["id"]) (id_list : List Nat) :
    preload_filter existing_ids id_list = id_list ∧
    (∀ fetch : Nat → Option Json,
      download_ids true existing_ids fetch id_list
        = download_ids false existing_ids fetch id_list) := by
  have hfilter : preload_filter existing_ids id_list = id_list := by
    apply List.filter_eq_self.mpr
    intro x _
    simp only [DataFrame.pyContains, h, Bool.not_eq_eq_eq_not, Bool.not_false,
      List.contains_cons, List.contains, Bool.or_false]
    simp [natToString_ne_id x]
  refine ⟨hfilter, fun fetch => ?_⟩
  simp [download_ids, hfilter]

/-- Witness for C1: a concrete `["id"]`-column frame excludes nothing from
a concrete identifier list. -/
theorem C1_preload_dedup_filter_is_noop_witness :
    ((⟨["id"], [[("id", Json.str "603")]]⟩ : DataFrame).columns = ["id"]) ∧
    preload_filter ⟨["id"], [[("id", Json.str "603")]]⟩ [603, 0, 42] = [603, 0, 42] :=
  ⟨rfl,
   (C1_preload_dedup_filter_is_noop ⟨["id"], [[("id", Json.str "603")]]⟩ rfl
     [603, 0, 42]).1⟩

theorem download_ids_loop_failures (fetch : Nat → Option Json) :
    ∀ (ids : List Nat) (s : FetchLoopState),
    (download_ids_loop fetch ids s).failures
      = s.failures ++ ids.filter (fun i => !pyTruthy (fetch i)) := by
  intro ids
  induction ids with
  | nil => intro s; simp [download_ids_loop]
  | cons i ids ih =>
    intro s
    cases hf : fetch i with
    | none => simp [download_ids_loop, hf, pyTruthy, ih, List.filter_cons]
    | some d =>
      by_cases hd : d.pyFalsy
      · simp [download_ids_loop, hf, hd, pyTruthy, ih, List.filter_cons]
      · by_cases hc : (s.counter + 1) % DOWNLOADS_PER_DISK_WRITE = 0 <;>
          simp [download_ids_loop, hf, hd, pyTruthy, ih, List.filter_cons, hc]

theorem download_ids_loop_counter (fetch : Nat → Option Json) :
    ∀ (ids : List Nat) (s : FetchLoopState),
    (download_ids_loop fetch ids s).counter
      = s.counter + (fetched_successes fetch ids).length := by
  intro ids
  induction ids with
  | nil => intro s; simp [download_ids_loop, fetched_successes]
  | cons i ids ih =>
    intro s
    cases hf : fetch i with
    | none => simp [download_ids_loop, hf, ih, fetched_successes, List.filterMap_cons]
    | some d =>
      by_cases hd : d.pyFalsy
      · simp [download_ids_loop, hf, hd, ih, fetched_successes, List.filterMap_cons]
      · by_cases hc : (s.counter + 1) % DOWNLOADS_PER_DISK_WRITE = 0 <;>
          simp [download_ids_loop, hf, hd, ih, fetched_successes, List.filterMap_cons, hc] <;>
          omega

theorem download_ids_loop_effective (fetch : Nat → Option Json) :
    ∀ (ids : List Nat) (s : FetchLoopState),
    download_ids_loop fetch ids s = download_ids_loop (effective_fetch fetch) ids s := by
  intro ids
  induction ids with
  | nil => intro s; rfl
  | cons i ids ih =>
    intro s
    cases hf : fetch i with
    | none => simp [download_ids_loop, hf, effective_fetch, ih]
    | some d =>
      by_cases hd : d.pyFalsy
      · simp [download_ids_loop, hf, hd, effective_fetch, ih]
      · simp only [download_ids_loop, hf, hd, effective_fetch, Bool.false_eq_true, if_false]
        by_cases hc : (s.counter + 1) % DOWNLOADS_PER_DISK_WRITE = 0 <;>
          simp [download_ids_loop, hd, hc, ih]

theorem download_ids_loop_exports (fetch : Nat → Option Json) :
    ∀ (ids : List Nat) (c : Nat) (b : List Json) (e : List (List Json)) (f : List Nat),
    b.length = c % DOWNLOADS_PER_DISK_WRITE →
    (download_ids_loop fetch ids ⟨c, b, e, f⟩).exports
        ++ [(download_ids_loop fetch ids ⟨c, b, e, f⟩).all_entries]
      = e ++ chunksAux b (fetched_successes fetch ids) := by
  intro ids
  induction ids with
  | nil =>
    intro c b e f hb
    simp [download_ids_loop, fetched_successes, chunksAux]
  | cons i ids ih =>
    intro c b e f hb
    have hlt : b.length < DOWNLOADS_PER_DISK_WRITE := by
      rw [hb]
      exact Nat.mod_lt _ (by simp [DOWNLOADS_PER_DISK_WRITE])
    cases hf : fetch i with
    | none =>
      simpa [download_ids_loop, hf, fetched_successes, List.filterMap_cons]
        using ih c b e (f ++ [i]) hb
    | some d =>
      by_cases hd : d.pyFalsy
      · simpa [download_ids_loop, hf, hd, fetched_successes, List.filterMap_cons]
          using ih c b e (f ++ [i]) hb
      · have hsucc : fetched_successes fetch (i :: ids) = d :: fetched_successes fetch ids := by
          simp [fetched_successes, List.filterMap_cons, hf, hd]
        rw [hsucc]
        by_cases hc : (c + 1) % DOWNLOADS_PER_DISK_WRITE = 0
        · have hlen : (b ++ [d]).length = DOWNLOADS_PER_DISK_WRITE := by
            simp only [List.length_append, List.length_cons, List.length_nil, hb,
              DOWNLOADS_PER_DISK_WRITE] at *
            omega
          have hih := ih (c + 1) [] (e ++ [b ++ [d]]) f (by simp [hc])
          simp only [download_ids_loop, hf, hd, Bool.false_eq_true, if_false, hc,
            beq_self_eq_true, if_true] at *
          rw [hih]
          simp [chunksAux, hlen]
        · have hlen : ¬((b ++ [d]).length = DOWNLOADS_PER_DISK_WRITE) := by
            simp only [List.length_append, List.length_cons, List.length_nil, hb,
              DOWNLOADS_PER_DISK_WRITE] at *
            omega
          have hb2 : (b ++ [d]).length = (c + 1) % DOWNLOADS_PER_DISK_WRITE := by
            simp only [List.length_append, List.length_cons, List.length_nil, hb,
              DOWNLOADS_PER_DISK_WRITE] at *
            omega
          have hih := ih (c + 1) (b ++ [d]) e f hb2
          have hcb : ((c + 1) % DOWNLOADS_PER_DISK_WRITE == 0) = false := by
            simpa using hc
          simp only [download_ids_loop, hf, hd, Bool.false_eq_true, if_false, hcb] at *
          rw [hih]
          have hlen2 : ¬(b.length + 1 = DOWNLOADS_PER_DISK_WRITE) := by
            simpa using hlen
          simp [chunksAux, hlen2]

theorem chunksAux_eq_chunksOfBatchSize :
    ∀ (l : List Json) (b : List Json), b.length < DOWNLOADS_PER_DISK_WRITE →
    chunksAux b l = chunksOfBatchSize (b ++ l) := by
  intro l
  induction l with
  | nil =>
    intro b hb
    rw [chunksOfBatchSize]
    simp [chunksAux, hb]
  | cons x xs ih =>
    intro b hb
    by_cases hlen : (b ++ [x]).length = DOWNLOADS_PER_DISK_WRITE
    · have hsplit : b ++ x :: xs = (b ++ [x]) ++ xs := by simp
      have hlong : ¬((b ++ x :: xs).length < DOWNLOADS_PER_DISK_WRITE) := by
        rw [hsplit, List.length_append, hlen]
        omega
      rw [chunksOfBatchSize]
      rw [if_neg hlong]
      have htake : (b ++ x :: xs).take DOWNLOADS_PER_DISK_WRITE = b ++ [x] := by
        rw [hsplit, ← hlen, List.take_left]
      have hdrop : (b ++ x :: xs).drop DOWNLOADS_PER_DISK_WRITE = xs := by
        rw [hsplit, ← hlen, List.drop_left]
      have h0 := ih [] (by simp [DOWNLOADS_PER_DISK_WRITE])
      simp only [List.nil_append] at h0
      rw [htake, hdrop, ← h0]
      have hlen2 : b.length + 1 = DOWNLOADS_PER_DISK_WRITE := by simpa using hlen
      simp [chunksAux, hlen2]
    · have hlt : (b ++ [x]).length < DOWNLOADS_PER_DISK_WRITE := by
        simp only [List.length_append, List.length_cons, List.length_nil] at *
        omega
      have hsplit : b ++ x :: xs = (b ++ [x]) ++ xs := by simp
      rw [show chunksOfBatchSize (b ++ x :: xs) = chunksOfBatchSize ((b ++ [x]) ++ xs) by
        rw [hsplit]]
      rw [← ih (b ++ [x]) hlt]
      have hlen2 : ¬(b.length + 1 = DOWNLOADS_PER_DISK_WRITE) := by simpa using hlen
      simp [chunksAux, hlen2]

theorem chunksAux_join :
    ∀ (l : List Json) (b : List Json), (chunksAux b l).flatten = b ++ l := by
  intro l
  induction l with
  | nil => intro b; simp [chunksAux]
  | cons x xs ih =>
    intro b
    by_cases h : b.length + 1 = DOWNLOADS_PER_DISK_WRITE <;>
      simp [chunksAux, h, ih]

/-- C5: with no pre-existing output file, `download_ids` hands `export_data`
exactly the consecutive blocks of `DOWNLOADS_PER_DISK_WRITE = 40`
successfully fetched records — a flush each time the cumulative success
counter reaches a multiple of 40, the batch being cleared after each flush —
plus one final call with the remaining partial batch; concatenating the
batches recovers every successfully fetched record exactly once, in order. -/
theorem C5_download_ids_flushes_every_forty_successes
    (existing_ids : DataFrame) (fetch : Nat → Option Json) (id_list : List Nat) :
    (download_ids false existing_ids fetch id_list).exports
        = chunksOfBatchSize (fetched_successes fetch id_list) ∧
    (download_ids false existing_ids fetch id_list).exports.flatten
        = fetched_successes fetch id_list := by
  have h := download_ids_loop_exports fetch id_list 0 [] [] [] (by simp)
  have hexp : (download_ids false existing_ids fetch id_list).exports
      = (download_ids_loop fetch id_list ⟨0, [], [], []⟩).exports
          ++ [(download_ids_loop fetch id_list ⟨0, [], [], []⟩).all_entries] := by
    simp [download_ids]
  rw [hexp, h]
  constructor
  · rw [chunksAux_eq_chunksOfBatchSize (fetched_successes fetch id_list) []
      (by simp [DOWNLOADS_PER_DISK_WRITE])]
    simp
  · simp [chunksAux_join]

/-- C10: `download_ids` treats a falsy fetched body — empty object, empty
list, JSON null, zero, empty string — exactly like an exhausted-retries
`None`: the identifier is logged as failed, the success counter is not
incremented, and the record never reaches `export_data`; the run is
indistinguishable from one where the fetch returned `None` outright. -/
theorem C10_falsy_fetch_results_treated_as_failures
    (existing_ids : DataFrame) (fetch : Nat → Option Json) (id_list : List Nat) :
    (download_ids false existing_ids fetch id_list).failures
        = id_list.filter (fun i => !pyTruthy (fetch i)) ∧
    (download_ids false existing_ids fetch id_list).counter
        = (fetched_successes fetch id_list).length ∧
    (download_ids false existing_ids fetch id_list).exports.flatten
        = fetched_successes fetch id_list ∧
    download_ids false existing_ids fetch id_list
        = download_ids false existing_ids (effective_fetch fetch) id_list ∧
    pyTruthy (some (Json.obj [])) = false ∧
    pyTruthy (some (Json.arr [])) = false ∧
    pyTruthy (some Json.null) = false ∧
    pyTruthy (some (Json.num 0)) = false ∧
    pyTruthy (some (Json.str "")) = false ∧
    pyTruthy none = false := by
  refine ⟨?_, ?_, ?_, ?_, rfl, rfl, rfl, rfl, rfl, rfl⟩
  · simp [download_ids, download_ids_loop_failures]
  · simp [download_ids, download_ids_loop_counter]
  · have h := download_ids_loop_exports fetch id_list 0 [] [] [] (by simp)
    have hexp : (download_ids false existing_ids fetch id_list).exports
        = (download_ids_loop fetch id_list ⟨0, [], [], []⟩).exports
            ++ [(download_ids_loop fetch id_list ⟨0, [], [], []⟩).all_entries] := by
      simp [download_ids]
    rw [hexp, h]
    simp [chunksAux_join]
  · simp only [download_ids]
    rw [download_ids_loop_effective]

theorem string_contains_append_left (l1 l2 : List String) (k : String)
    (h : l1.contains k = true) : (l1 ++ l2).contains k = true := by
  have hk : k ∈ l1 := by simpa using h
  have hm : k ∈ l1 ++ l2 := List.mem_append.mpr (Or.inl hk)
  simpa using hm

theorem union_columns_insert_mono (r : Row) :
    ∀ (acc : List String) (k : String), acc.contains k = true →
    (union_columns_insert acc r).contains k = true := by
  induction r with
  | nil => intro acc k h; exact h
  | cons kv r ih =>
    intro acc k h
    unfold union_columns_insert at *
    simp only [List.foldl_cons]
    by_cases hc : acc.contains kv.1
    · rw [if_pos hc]
      exact ih acc k h
    · rw [if_neg hc]
      exact ih (acc ++ [kv.1]) k (string_contains_append_left acc [kv.1] k h)

theorem union_columns_insert_adds (r : Row) :
    ∀ (acc : List String) (k : String), Row.hasKey r k = true →
    (union_columns_insert acc r).contains k = true := by
  induction r with
  | nil => intro acc k h; simp [Row.hasKey] at h
  | cons kv r ih =>
    intro acc k h
    unfold union_columns_insert at *
    simp only [List.foldl_cons]
    by_cases hk : kv.1 = k
    · subst hk
      by_cases hc : acc.contains kv.1
      · rw [if_pos hc]
        exact union_columns_insert_mono r acc kv.1 hc
      · rw [if_neg hc]
        refine union_columns_insert_mono r (acc ++ [kv.1]) kv.1 ?_
        simp
    · have hr : Row.hasKey r k = true := by
        simpa [Row.hasKey, List.any_cons, hk] using h
      by_cases hc : acc.contains kv.1
      · rw [if_pos hc]; exact ih acc k hr
      · rw [if_neg hc]; exact ih (acc ++ [kv.1]) k hr

theorem foldl_union_columns_mono (entries : List Row) :
    ∀ (acc : List String) (k : String), acc.contains k = true →
    (entries.foldl union_columns_insert acc).contains k = true := by
  induction entries with
  | nil => intro acc k h; exact h
  | cons e entries ih =>
    intro acc k h
    simp only [List.foldl_cons]
    exact ih _ k (union_columns_insert_mono e acc k h)

theorem foldl_union_columns_contains (entries : List Row) :
    ∀ (acc : List String) (e : Row), e ∈ entries →
    ∀ k : String, Row.hasKey e k = true →
    (entries.foldl union_columns_insert acc).contains k = true := by
  induction entries with
  | nil => intro acc e he; simp at he
  | cons e0 entries ih =>
    intro acc e he k hk
    simp only [List.foldl_cons]
    rcases List.mem_cons.mp he with rfl | he0
    · exact foldl_union_columns_mono entries _ k (union_columns_insert_adds e acc k hk)
    · exact ih _ e he0 k hk

theorem ofRecords_columns_contains (entries : List Row) (e : Row)
    (he : e ∈ entries) (k : String) (hk : Row.hasKey e k = true) :
    (DataFrame.ofRecords entries).columns.contains k = true :=
  foldl_union_columns_contains entries [] e he k hk

theorem Row.get_of_hasKey_eq_false (r : Row) (k : String)
    (h : Row.hasKey r k = false) : Row.get r k = Json.null := by
  induction r with
  | nil => rfl
  | cons kv r ih =>
    simp only [Row.hasKey, List.any_cons, Bool.or_eq_false_iff] at h
    have h1 : ¬(kv.1 = k) := by simpa using h.1
    simp only [Row.get, h1]
    rw [if_neg (by simpa using h1)]
    exact ih (by simp [Row.hasKey, h.2])

theorem length_filter_add_length_filter_not (l : List α) (p : α → Bool) :
    (l.filter p).length + (l.filter (fun a => !p a)).length = l.length := by
  induction l with
  | nil => simp
  | cons a l ih =>
    cases hp : p a <;> simp [List.filter_cons, hp] <;> omega

theorem DataFrame.setCol_rows_length (df : DataFrame) (c : String) (f : Row → Json) :
    (df.setCol c f).rows.length = df.rows.length := by
  simp [DataFrame.setCol]

theorem foldl_setCol_rows_length (cs : List String) (F : String → Row → Json) :
    ∀ df : DataFrame,
    (cs.foldl (fun d c => d.setCol c (F c)) df).rows.length = df.rows.length := by
  induction cs with
  | nil => intro df; rfl
  | cons c cs ih =>
    intro df
    simp only [List.foldl_cons]
    rw [ih, DataFrame.setCol_rows_length]

/-- C3: on a batch of 5 raw detail records of which exactly one has a null
identifier and the others have numeric identifiers, `export_data` drops the
null-identifier row (logging a drop count of 1), keeps all numeric-id rows
through the numeric filter, and writes exactly 4 rows to the primary
table. -/
theorem C3_export_data_writes_four_of_five
    (data_csv_exists credits_csv_exists : Bool) (all_entries : List Row)
    (hlen : all_entries.length = 5)
    (hnull : (all_entries.filter (fun e => (Row.get e "id").isNull)).length = 1)
    (hval : ∀ e ∈ all_entries, (Row.get e "id").isNull = true ∨
      str_isnumeric (pyStr (Row.get e "id")) = true)
    (hshape : ∀ e ∈ all_entries, detail_record_shape e = true) :
    (export_data data_csv_exists credits_csv_exists all_entries).map
        (fun res => (res.droppedNullIds, res.dataWrite.frame.rows.length))
      = some (1, 4) := by
  have hne : all_entries.isEmpty = false := by
    cases all_entries with
    | nil => simp at hlen
    | cons a l => rfl
  have hpart := length_filter_add_length_filter_not all_entries
    (fun e => (Row.get e "id").isNull)
  have h4 : (all_entries.filter (fun e => !(Row.get e "id").isNull)).length = 4 := by
    omega
  have hex : all_entries.filter (fun e => !(Row.get e "id").isNull) ≠ [] := by
    intro h
    rw [h] at h4
    simp at h4
  obtain ⟨e0, he0f⟩ := List.exists_mem_of_ne_nil _ hex
  have he0 : e0 ∈ all_entries := (List.mem_filter.mp he0f).1
  have hne0 : (Row.get e0 "id").isNull = false := by
    have := (List.mem_filter.mp he0f).2
    simpa using this
  have hkey : Row.hasKey e0 "id" = true := by
    cases hK : Row.hasKey e0 "id"
    · rw [Row.get_of_hasKey_eq_false e0 "id" hK] at hne0
      simp [Json.isNull] at hne0
    · rfl
  have hcolsU : ((DataFrame.ofRecords all_entries).columns).contains "id" = true :=
    ofRecords_columns_contains all_entries e0 he0 "id" hkey
  have hget : ∀ e : Row,
      Row.get (Row.select (((DataFrame.ofRecords all_entries).columns).filter
          (fun x => !KEYS_TO_DROP.contains x))
        (Row.select ((DataFrame.ofRecords all_entries).columns) e)) "id"
      = Row.get e "id" := by
    intro e
    rw [Row.get_select, Row.get_select]
    have hmemU : "id" ∈ (DataFrame.ofRecords all_entries).columns := by
      simpa using hcolsU
    have hnd : "id" ∉ KEYS_TO_DROP := by decide
    simp [hmemU, hnd]
  have hofrows : (DataFrame.ofRecords all_entries).rows
      = all_entries.map (Row.select (DataFrame.ofRecords all_entries).columns) := rfl
  have hlist1 : (all_entries.map (fun e =>
        Row.select (((DataFrame.ofRecords all_entries).columns).filter
          (fun x => !KEYS_TO_DROP.contains x))
        (Row.select ((DataFrame.ofRecords all_entries).columns) e))).filter
          (fun r => (Row.get r "id").isNull)
      = (all_entries.filter (fun e => (Row.get e "id").isNull)).map (fun e =>
          Row.select (((DataFrame.ofRecords all_entries).columns).filter
            (fun x => !KEYS_TO_DROP.contains x))
          (Row.select ((DataFrame.ofRecords all_entries).columns) e)) := by
    rw [List.filter_map]
    congr 1
    apply List.filter_congr
    intro e _
    exact congrArg Json.isNull (hget e)
  have hlist2 : (all_entries.map (fun e =>
        Row.select (((DataFrame.ofRecords all_entries).columns).filter
          (fun x => !KEYS_TO_DROP.contains x))
        (Row.select ((DataFrame.ofRecords all_entries).columns) e))).filter
          (fun r => !(Row.get r "id").isNull)
      = (all_entries.filter (fun e => !(Row.get e "id").isNull)).map (fun e =>
          Row.select (((DataFrame.ofRecords all_entries).columns).filter
            (fun x => !KEYS_TO_DROP.contains x))
          (Row.select ((DataFrame.ofRecords all_entries).columns) e)) := by
    rw [List.filter_map]
    congr 1
    apply List.filter_congr
    intro e _
    exact congrArg (fun j => !Json.isNull j) (hget e)
  have hlist3 : ((all_entries.filter (fun e => !(Row.get e "id").isNull)).map (fun e =>
        Row.select (((DataFrame.ofRecords all_entries).columns).filter
          (fun x => !KEYS_TO_DROP.contains x))
        (Row.select ((DataFrame.ofRecords all_entries).columns) e))).filter
          (fun r => str_isnumeric (pyStr (Row.get r "id")))
      = (all_entries.filter (fun e => !(Row.get e "id").isNull)).map (fun e =>
          Row.select (((DataFrame.ofRecords all_entries).columns).filter
            (fun x => !KEYS_TO_DROP.contains x))
          (Row.select ((DataFrame.ofRecords all_entries).columns) e)) := by
    rw [List.filter_map]
    have hsub : (all_entries.filter (fun e => !(Row.get e "id").isNull)).filter
        ((fun r => str_isnumeric (pyStr (Row.get r "id"))) ∘ (fun e =>
          Row.select (((DataFrame.ofRecords all_entries).columns).filter
            (fun x => !KEYS_TO_DROP.contains x))
          (Row.select ((DataFrame.ofRecords all_entries).columns) e)))
        = all_entries.filter (fun e => !(Row.get e "id").isNull) := by
      apply List.filter_eq_self.mpr
      intro e he
      have hem : e ∈ all_entries := (List.mem_filter.mp he).1
      have henn : (Row.get e "id").isNull = false := by
        have := (List.mem_filter.mp he).2
        simpa using this
      have hnum : str_isnumeric (pyStr (Row.get e "id")) = true := by
        rcases hval e hem with hcase | hcase
        · rw [hcase] at henn
          simp at henn
        · exact hcase
      have hrw := congrArg (fun j => str_isnumeric (pyStr j)) (hget e)
      exact hrw.trans hnum
    rw [hsub]
  simp only [export_data, hne, Bool.false_eq_true, if_false, Option.map_some']
  simp only [Option.some.injEq, Prod.mk.injEq]
  constructor
  · simp only [DataFrame.selectCols, hofrows, List.map_map, Function.comp_def,
      DataFrame.filterRows]
    rw [hlist1, List.length_map, hnull]
  · simp only [DataFrame.selectCols, hofrows, List.map_map, Function.comp_def,
      DataFrame.filterRows]
    rw [hlist1, List.length_map, hnull]
    simp only [gt_iff_lt, zero_lt_one, if_true]
    rw [hlist2, hlist3]
    simp only [foldl_setCol_rows_length, DataFrame.setCol_rows_length]
    simp [unpack_credits, DataFrame.deleteCol, h4]

/-- Witness for C3: a concrete batch of 5 records with one null identifier
exports 4 rows and logs 1 drop. -/
theorem C3_export_data_writes_four_of_five_witness :
    (sample_batch_of_five.length = 5) ∧
    ((sample_batch_of_five.filter (fun e => (Row.get e "id").isNull)).length = 1) ∧
    ((export_data true false sample_batch_of_five).map
        (fun res => (res.droppedNullIds, res.dataWrite.frame.rows.length))
      = some (1, 4)) :=
  ⟨rfl, by decide,
   C3_export_data_writes_four_of_five true false sample_batch_of_five rfl (by decide)
     (by decide) (by decide)⟩
